import Mathlib

/-!
# PiDNG `core.py` — verification of the pixel pipeline and container layout

Shallow embedding of `src/pidng/core.py` (classes `DNGBASE`, `RPICAM2DNG`).
Machine integers are modelled as `Nat` with explicit reduction modulo `2^16`
where the source works on `numpy.uint16` arrays.  The companion modules
`packing.py` and `dng.py` are not part of the source tree given here; the
definitions that stand in for them are marked `Modelled from the spec:` and
follow the specification's wording.
-/

namespace PiDNG

/-- Reduction modulo `2^16`: arithmetic on `numpy.uint16` values. -/
def u16 (n : Nat) : Nat := n % 65536

/-- Element types of the numpy arrays that flow through the pipeline. -/
inductive NpDtype where
  | uint8 : NpDtype
  | uint16 : NpDtype
  | float32 : NpDtype
deriving DecidableEq, Repr

/-- A 2-dimensional numpy array: an element type and a list of rows.
Sample values are natural numbers (for `float32` frames the `Nat` holds the
raw 32-bit pattern; no claim depends on float arithmetic). -/
structure NDArray where
  dtype : NpDtype
  data : List (List Nat)
deriving DecidableEq, Repr

/-- The shape of an array, as the profile of its row lengths
(for the rectangular arrays numpy produces, this is `(rows, cols)`). -/
def NDArray.shape (a : NDArray) : List Nat := a.data.map List.length

/-! ## Pixel Unpacker (`RPICAM2DNG.__unpack_pixels__`, core.py lines 182-215)

The 10-bit branch is

    data = data.astype(np.uint16) << 2
    for byte in range(4):
        data[:, byte::5] |= ((data[:, 4::5] >> ((byte+1) * 2)) & 0b11)
    data = np.delete(data, np.s_[4::5], 1)

Note that the cast-and-shift on the first line applies to *every* column,
including the fifth byte of each 5-byte group, so the two low bits of sample
`byte` sit at bit offset `(byte+1)*2` of the *shifted* fifth byte.  The column
operations act on each row independently; the embedding processes one 5-byte
group at a time. -/

/-- One 5-byte group of the 10-bit unpack, producing 4 samples.  The shift
amounts `2, 4, 6, 8` are `(byteIndex+1)*2` for `byteIndex = 0..3`. -/
def unpack10Group (b0 b1 b2 b3 b4 : Nat) : List Nat :=
  [ u16 (b0 <<< 2) ||| ((u16 (b4 <<< 2) >>> 2) &&& 3),
    u16 (b1 <<< 2) ||| ((u16 (b4 <<< 2) >>> 4) &&& 3),
    u16 (b2 <<< 2) ||| ((u16 (b4 <<< 2) >>> 6) &&& 3),
    u16 (b3 <<< 2) ||| ((u16 (b4 <<< 2) >>> 8) &&& 3) ]

/-- The 10-bit unpack of one row: every 5-byte group yields 4 samples, the
fifth byte column is dropped. -/
def unpack10Row : List Nat → List Nat
  | b0 :: b1 :: b2 :: b3 :: b4 :: rest => unpack10Group b0 b1 b2 b3 b4 ++ unpack10Row rest
  | _ => []

/-- One 3-byte group of the 12-bit unpack (core.py lines 205-211), producing
2 samples:

    unpacked_data[:, ::2]  = (data[:, ::3] << 4) + (data[:, 2::3] & 0x0F)
    unpacked_data[:, 1::2] = (data[:, 1::3] << 4) + ((data[:, 2::3] >> 4) & 0x0F)

on arrays already cast to `uint16` (hence the mod-`2^16` arithmetic). -/
def unpack12Group (b0 b1 b2 : Nat) : List Nat :=
  [ u16 (u16 (b0 <<< 4) + (b2 &&& 15)),
    u16 (u16 (b1 <<< 4) + ((b2 >>> 4) &&& 15)) ]

/-- The 12-bit unpack of one row: every 3-byte group yields 2 samples,
interleaved exactly as the strided numpy assignments do. -/
def unpack12Row : List Nat → List Nat
  | b0 :: b1 :: b2 :: rest => unpack12Group b0 b1 b2 ++ unpack12Row rest
  | _ => []

/-- The 16-bit pass-through (`data.view(np.uint16)` on a little-endian
platform): consecutive byte pairs reinterpreted as unsigned 16-bit values. -/
def view16Row : List Nat → List Nat
  | b0 :: b1 :: rest => (b0 + 256 * b1) :: view16Row rest
  | _ => []

/-! ## Bit Packer (`packing.py`) — spec-modelled -/

/-- Modelled from the spec: `packing.py` (`pack10`) is not under `src/`.
Per spec §4.3 the Bit Packer encodes runs of 4 samples into the minimal
contiguous 5-byte group, bit-exact, invertible by the Pixel Unpacker: each
of the first four bytes holds the top 8 bits of one sample and the fifth
byte carries the two low bits of sample `i` at bit offset `i*2`. -/
def pack10Group (s0 s1 s2 s3 : Nat) : List Nat :=
  [ s0 / 4, s1 / 4, s2 / 4, s3 / 4,
    s0 % 4 + 4 * (s1 % 4) + 16 * (s2 % 4) + 64 * (s3 % 4) ]

/-- Modelled from the spec: 10-bit packing of one row, 4 samples at a time. -/
def pack10Row : List Nat → List Nat
  | s0 :: s1 :: s2 :: s3 :: rest => pack10Group s0 s1 s2 s3 ++ pack10Row rest
  | _ => []

/-- Modelled from the spec: `packing.py` (`pack12`) is not under `src/`.
Two samples become 3 bytes: the first two bytes hold the top 8 bits of each
sample, the third byte carries the low nibble of sample 0 in its low nibble
and the low nibble of sample 1 in its high nibble. -/
def pack12Group (s0 s1 : Nat) : List Nat :=
  [ s0 / 16, s1 / 16, s0 % 16 + 16 * (s1 % 16) ]

/-- Modelled from the spec: 12-bit packing of one row, 2 samples at a time. -/
def pack12Row : List Nat → List Nat
  | s0 :: s1 :: rest => pack12Group s0 s1 ++ pack12Row rest
  | _ => []

/-- Modelled from the spec: `packing.py` (`pack14`) is not under `src/`.
Four 14-bit samples packed bit-exactly into 7 bytes (low-bit-first). -/
def pack14Row : List Nat → List Nat
  | s0 :: s1 :: s2 :: s3 :: rest =>
    let n := s0 % 16384 + 16384 * (s1 % 16384) + 268435456 * (s2 % 16384) +
      4398046511104 * (s3 % 16384)
    [ n % 256, n / 256 % 256, n / 65536 % 256, n / 16777216 % 256,
      n / 4294967296 % 256, n / 1099511627776 % 256, n / 281474976710656 % 256 ]
      ++ pack14Row rest
  | _ => []

/-! ## Bitwise-to-arithmetic bridges -/

/-- `x &&& 3` is `x % 4`. -/
theorem and_three (x : Nat) : x &&& 3 = x % 4 := by
  have h := Nat.and_pow_two_sub_one_eq_mod x 2
  norm_num at h
  exact h

/-- `x &&& 15` is `x % 16`. -/
theorem and_fifteen (x : Nat) : x &&& 15 = x % 16 := by
  have h := Nat.and_pow_two_sub_one_eq_mod x 4
  norm_num at h
  exact h

/-- Bitwise or of values occupying disjoint bit ranges is addition. -/
theorem or_eq_add_pow (k a b : Nat) (ha : a % 2 ^ k = 0) (hb : b < 2 ^ k) :
    a ||| b = a + b := by
  obtain ⟨q, rfl⟩ := Nat.dvd_of_mod_eq_zero ha
  exact (Nat.mul_add_lt_is_or hb q).symm

/-- One sample of the 10-bit round trip: recombining the high byte with the
two low bits extracted from the (shifted) fifth byte recovers the sample. -/
theorem sample10_eq (s b4 m k : Nat) (hs : s < 1024) (hb : b4 < 256)
    (hm : (2 : Nat) ^ m = 2 ^ k * 4) (hbits : b4 / 2 ^ k % 4 = s % 4) :
    u16 ((s / 4) <<< 2) ||| ((u16 (b4 <<< 2) >>> m) &&& 3) = s := by
  have e1 : u16 ((s / 4) <<< 2) = 4 * (s / 4) := by
    simp only [u16, Nat.shiftLeft_eq]
    omega
  have e2 : u16 (b4 <<< 2) = 4 * b4 := by
    simp only [u16, Nat.shiftLeft_eq]
    omega
  have e3 : (4 * b4) >>> m = b4 / 2 ^ k := by
    rw [Nat.shiftRight_eq_div_pow, hm, Nat.mul_comm (2 ^ k) 4]
    exact Nat.mul_div_mul_left b4 (2 ^ k) (by norm_num)
  rw [e1, e2, e3, and_three,
    or_eq_add_pow 2 _ _ (by omega) (by norm_num [Nat.mod_lt])]
  omega

/-- The 10-bit unpacker inverts the 10-bit packer on one 4-sample group. -/
theorem unpack10Group_pack10Group (s0 s1 s2 s3 : Nat)
    (h0 : s0 < 1024) (h1 : s1 < 1024) (h2 : s2 < 1024) (h3 : s3 < 1024) :
    unpack10Group (s0 / 4) (s1 / 4) (s2 / 4) (s3 / 4)
      (s0 % 4 + 4 * (s1 % 4) + 16 * (s2 % 4) + 64 * (s3 % 4)) = [s0, s1, s2, s3] := by
  have hb : s0 % 4 + 4 * (s1 % 4) + 16 * (s2 % 4) + 64 * (s3 % 4) < 256 := by omega
  simp only [unpack10Group, List.cons.injEq, and_true]
  refine ⟨?_, ?_, ?_, ?_⟩
  · exact sample10_eq s0 _ 2 0 h0 hb (by norm_num) (by omega)
  · exact sample10_eq s1 _ 4 2 h1 hb (by norm_num) (by omega)
  · exact sample10_eq s2 _ 6 4 h2 hb (by norm_num) (by omega)
  · exact sample10_eq s3 _ 8 6 h3 hb (by norm_num) (by omega)

/-- The 12-bit unpacker inverts the 12-bit packer on one 2-sample group. -/
theorem unpack12Group_pack12Group (s0 s1 : Nat) (h0 : s0 < 4096) (h1 : s1 < 4096) :
    unpack12Group (s0 / 16) (s1 / 16) (s0 % 16 + 16 * (s1 % 16)) = [s0, s1] := by
  simp only [unpack12Group, u16, Nat.shiftLeft_eq, and_fifteen,
    Nat.shiftRight_eq_div_pow, List.cons.injEq, and_true]
  norm_num
  omega

/-- The 10-bit unpacker inverts the 10-bit packer on a whole row whose
length is a multiple of 4 and whose samples are in 10-bit range. -/
theorem unpack10Row_pack10Row (r : List Nat) (hlen : r.length % 4 = 0)
    (hs : ∀ s ∈ r, s < 1024) : unpack10Row (pack10Row r) = r := by
  induction r using pack10Row.induct with
  | case1 s0 s1 s2 s3 rest ih =>
    simp only [List.length_cons, List.mem_cons, forall_eq_or_imp] at hlen hs
    simp only [pack10Row, pack10Group, List.cons_append, List.nil_append, unpack10Row]
    simp only [List.append_eq, List.nil_append]
    rw [unpack10Group_pack10Group s0 s1 s2 s3 hs.1 hs.2.1 hs.2.2.1 hs.2.2.2.1,
      ih (by omega) hs.2.2.2.2]
    rfl
  | case2 x h1 =>
    rcases x with _ | ⟨a, _ | ⟨b, _ | ⟨c, _ | ⟨d, rest⟩⟩⟩⟩
    · rfl
    · simp at hlen
    · simp at hlen
    · simp at hlen
    · exact absurd rfl (fun hh => h1 a b c d rest hh)

/-- The 12-bit unpacker inverts the 12-bit packer on a whole row whose
length is even and whose samples are in 12-bit range. -/
theorem unpack12Row_pack12Row (r : List Nat) (hlen : r.length % 2 = 0)
    (hs : ∀ s ∈ r, s < 4096) : unpack12Row (pack12Row r) = r := by
  induction r using pack12Row.induct with
  | case1 s0 s1 rest ih =>
    simp only [List.length_cons, List.mem_cons, forall_eq_or_imp] at hlen hs
    simp only [pack12Row, pack12Group, List.cons_append, List.nil_append, unpack12Row,
      List.append_eq]
    rw [unpack12Group_pack12Group s0 s1 hs.1 hs.2.1, ih (by omega) hs.2.2]
    rfl
  | case2 x h1 =>
    rcases x with _ | ⟨a, _ | ⟨b, rest⟩⟩
    · rfl
    · simp at hlen
    · exact absurd rfl (fun hh => h1 a b rest hh)

/-- A 10-bit packed row is 5 bytes per 4 samples. -/
theorem pack10Row_length (r : List Nat) (hlen : r.length % 4 = 0) :
    (pack10Row r).length = r.length / 4 * 5 := by
  induction r using pack10Row.induct with
  | case1 s0 s1 s2 s3 rest ih =>
    simp only [List.length_cons] at hlen ⊢
    simp only [pack10Row, pack10Group, List.length_append, List.length_cons,
      List.length_nil]
    rw [ih (by omega)]
    omega
  | case2 x h1 =>
    rcases x with _ | ⟨a, _ | ⟨b, _ | ⟨c, _ | ⟨d, rest⟩⟩⟩⟩
    · rfl
    · simp at hlen
    · simp at hlen
    · simp at hlen
    · exact absurd rfl (fun hh => h1 a b c d rest hh)

/-- A 12-bit packed row is 3 bytes per 2 samples. -/
theorem pack12Row_length (r : List Nat) (hlen : r.length % 2 = 0) :
    (pack12Row r).length = r.length / 2 * 3 := by
  induction r using pack12Row.induct with
  | case1 s0 s1 rest ih =>
    simp only [List.length_cons] at hlen ⊢
    simp only [pack12Row, pack12Group, List.length_append, List.length_cons,
      List.length_nil]
    rw [ih (by omega)]
    omega
  | case2 x h1 =>
    rcases x with _ | ⟨a, _ | ⟨b, rest⟩⟩
    · rfl
    · simp at hlen
    · exact absurd rfl (fun hh => h1 a b rest hh)

/-! ## Capture Format Descriptor and the full `__unpack_pixels__` -/

/-- The capture format dictionary of the camera model (`self.model.fmt`):
`size` is `(width, height)`, `bpp` the stored bit depth, `format` the mode
name (a `"CSI2P"` substring marks the packed stored format). -/
structure CaptureFormat where
  size : Nat × Nat
  stride : Nat
  bpp : Nat
  format : List Char
deriving DecidableEq, Repr

/-- Does the format name begin with `CSI2P`? -/
def startsCSI2P : List Char → Bool
  | 'C' :: 'S' :: 'I' :: '2' :: 'P' :: _ => true
  | _ => false

/-- Python's `"CSI2P" in fmt` substring test. -/
def hasCSI2P : List Char → Bool
  | [] => false
  | c :: rest => startsCSI2P (c :: rest) || hasCSI2P rest

/-- `RPICAM2DNG.__unpack_pixels__` (core.py lines 182-215).  Non-`uint8`
input is returned unchanged.  Otherwise the stored bit depth is the
descriptor's `bpp` for `CSI2P` (packed) formats and 16 for everything else;
the buffer is cropped to `height` rows of `width * s_bpp / 8` bytes and the
matching branch decodes it.  A stored depth other than 10, 12 or 16 falls
through every branch and the (cropped) `uint8` data is returned as-is —
there is no error path in this function. -/
def unpackPixels (fmt : CaptureFormat) (data : NDArray) : NDArray :=
  if data.dtype ≠ NpDtype.uint8 then data
  else
    let width := fmt.size.1
    let height := fmt.size.2
    let sbpp := if hasCSI2P fmt.format then fmt.bpp else 16
    let bytesPerRow := width * sbpp / 8
    let cropped := (data.data.take height).map (fun r => r.take bytesPerRow)
    if sbpp = 10 then ⟨NpDtype.uint16, cropped.map unpack10Row⟩
    else if sbpp = 12 then ⟨NpDtype.uint16, cropped.map unpack12Row⟩
    else if sbpp = 16 then ⟨NpDtype.uint16, cropped.map view16Row⟩
    else ⟨NpDtype.uint8, cropped⟩

/-- A 10-bit `CSI2P` mode name, as published by the Raspberry Pi camera
stack. -/
def fmt10Name : List Char := ['S', 'R', 'G', 'G', 'B', '1', '0', '_', 'C', 'S', 'I', '2', 'P']

/-- A 12-bit `CSI2P` mode name. -/
def fmt12Name : List Char := ['S', 'R', 'G', 'G', 'B', '1', '2', '_', 'C', 'S', 'I', '2', 'P']

/-- A 14-bit `CSI2P` mode name (no such decode path exists). -/
def fmt14Name : List Char := ['S', 'R', 'G', 'G', 'B', '1', '4', '_', 'C', 'S', 'I', '2', 'P']

/-- Helper: unpacking a row that was 10-bit packed and then cropped to the
exact packed length recovers the row. -/
theorem unpack10_take (w : Nat) (r : List Nat) (hrw : r.length = w) (h4 : w % 4 = 0)
    (hs : ∀ s ∈ r, s < 1024) :
    unpack10Row ((pack10Row r).take (w * 10 / 8)) = r := by
  have hl : (pack10Row r).length = w / 4 * 5 := by
    rw [pack10Row_length r (by rw [hrw]; exact h4), hrw]
  rw [List.take_of_length_le (by rw [hl]; omega),
    unpack10Row_pack10Row r (by rw [hrw]; exact h4) hs]

/-- Helper: unpacking a row that was 12-bit packed and then cropped to the
exact packed length recovers the row. -/
theorem unpack12_take (w : Nat) (r : List Nat) (hrw : r.length = w) (h2 : w % 2 = 0)
    (hs : ∀ s ∈ r, s < 4096) :
    unpack12Row ((pack12Row r).take (w * 12 / 8)) = r := by
  have hl : (pack12Row r).length = w / 2 * 3 := by
    rw [pack12Row_length r (by rw [hrw]; exact h2), hrw]
  rw [List.take_of_length_le (by rw [hl]; omega),
    unpack12Row_pack12Row r (by rw [hrw]; exact h2) hs]

/-- C1: for every in-range sample array, `__unpack_pixels__` applied to the
packed encoding returns the original array, on the 10-bit and the 12-bit
`CSI2P` paths. -/
theorem unpack_inverts_pack (w h : Nat) (rows : List (List Nat))
    (hh : rows.length = h) (hw : ∀ r ∈ rows, r.length = w) :
    (w % 4 = 0 → (∀ r ∈ rows, ∀ s ∈ r, s < 1024) →
      unpackPixels ⟨(w, h), 0, 10, fmt10Name⟩ ⟨NpDtype.uint8, rows.map pack10Row⟩
        = ⟨NpDtype.uint16, rows⟩)
  ∧ (w % 2 = 0 → (∀ r ∈ rows, ∀ s ∈ r, s < 4096) →
      unpackPixels ⟨(w, h), 0, 12, fmt12Name⟩ ⟨NpDtype.uint8, rows.map pack12Row⟩
        = ⟨NpDtype.uint16, rows⟩) := by
  constructor
  · intro h4 hs
    show NDArray.mk NpDtype.uint16
      ((((rows.map pack10Row).take h).map (fun r => r.take (w * 10 / 8))).map unpack10Row)
      = ⟨NpDtype.uint16, rows⟩
    rw [List.take_of_length_le (by simp [hh]), List.map_map, List.map_map]
    congr 1
    calc rows.map (unpack10Row ∘ (fun r => r.take (w * 10 / 8)) ∘ pack10Row)
        = rows.map id :=
          List.map_congr_left
            (fun r hr => unpack10_take w r (hw r hr) h4 (hs r hr))
      _ = rows := List.map_id rows
  · intro h2 hs
    show NDArray.mk NpDtype.uint16
      ((((rows.map pack12Row).take h).map (fun r => r.take (w * 12 / 8))).map unpack12Row)
      = ⟨NpDtype.uint16, rows⟩
    rw [List.take_of_length_le (by simp [hh]), List.map_map, List.map_map]
    congr 1
    calc rows.map (unpack12Row ∘ (fun r => r.take (w * 12 / 8)) ∘ pack12Row)
        = rows.map id :=
          List.map_congr_left
            (fun r hr => unpack12_take w r (hw r hr) h2 (hs r hr))
      _ = rows := List.map_id rows

/-- `u16` is the identity below `2^16`. -/
theorem u16_small (x : Nat) (hx : x < 65536) : u16 x = x := Nat.mod_eq_of_lt hx

/-- The claim's literal reading of the 10-bit low-bit extraction: the two low
bits of sample `byteIndex` taken from the *raw* fifth byte at bit offset
`(byteIndex+1)*2`.  (The code instead shifts the fifth byte column left by 2
together with the others before extracting.) -/
def unpack10GroupClaim (b0 b1 b2 b3 b4 : Nat) : List Nat :=
  [ u16 (b0 <<< 2) ||| ((b4 >>> 2) &&& 3),
    u16 (b1 <<< 2) ||| ((b4 >>> 4) &&& 3),
    u16 (b2 <<< 2) ||| ((b4 >>> 6) &&& 3),
    u16 (b3 <<< 2) ||| ((b4 >>> 8) &&& 3) ]

/-- On the group `(0,0,0,0,1)` the code produces `[1,0,0,0]` (the low bits of
sample 0 are bits 0-1 of the raw fifth byte), while the claim's offsets
`(byteIndex+1)*2` into the raw fifth byte would produce `[0,0,0,0]`. -/
theorem unpack10_offset_counterexample :
    unpack10Group 0 0 0 0 1 = [1, 0, 0, 0]
  ∧ unpack10GroupClaim 0 0 0 0 1 = [0, 0, 0, 0]
  ∧ unpack10Group 0 0 0 0 1 ≠ unpack10GroupClaim 0 0 0 0 1 := by
  decide

/-- Extracting two bits at offset `m = k+2` from the left-shifted fifth byte
equals extracting them at offset `k` from the raw fifth byte. -/
theorem shifted_bits_eq (b4 m k : Nat) (hb : b4 < 256)
    (hm : (2 : Nat) ^ m = 2 ^ k * 4) :
    (u16 (b4 <<< 2) >>> m) &&& 3 = (b4 >>> k) &&& 3 := by
  have e2 : u16 (b4 <<< 2) = 4 * b4 := by
    simp only [u16, Nat.shiftLeft_eq]
    omega
  rw [e2, Nat.shiftRight_eq_div_pow, Nat.shiftRight_eq_div_pow, hm,
    Nat.mul_comm (2 ^ k) 4, Nat.mul_div_mul_left b4 (2 ^ k) (by norm_num)]

/-- C3 (amended): each 5-byte group yields 4 samples; byte `i` is shifted
left by 2 and receives the two low bits found at bit offset `i*2` of the raw
fifth byte (the code reads offset `(i+1)*2` of the fifth byte after shifting
it, too, left by 2 — the same bits); the fifth byte column is dropped. -/
theorem unpack10_group_formula (b0 b1 b2 b3 b4 : Nat)
    (h0 : b0 < 256) (h1 : b1 < 256) (h2 : b2 < 256) (h3 : b3 < 256) (h4 : b4 < 256) :
    (unpack10Group b0 b1 b2 b3 b4 =
      [ (b0 <<< 2) ||| (b4 &&& 3),
        (b1 <<< 2) ||| ((b4 >>> 2) &&& 3),
        (b2 <<< 2) ||| ((b4 >>> 4) &&& 3),
        (b3 <<< 2) ||| ((b4 >>> 6) &&& 3) ])
  ∧ ∀ rest, unpack10Row (b0 :: b1 :: b2 :: b3 :: b4 :: rest) =
      unpack10Group b0 b1 b2 b3 b4 ++ unpack10Row rest := by
  refine ⟨?_, fun rest => rfl⟩
  have u0 : u16 (b0 <<< 2) = b0 <<< 2 := u16_small _ (by simp [Nat.shiftLeft_eq]; omega)
  have u1 : u16 (b1 <<< 2) = b1 <<< 2 := u16_small _ (by simp [Nat.shiftLeft_eq]; omega)
  have u2 : u16 (b2 <<< 2) = b2 <<< 2 := u16_small _ (by simp [Nat.shiftLeft_eq]; omega)
  have u3 : u16 (b3 <<< 2) = b3 <<< 2 := u16_small _ (by simp [Nat.shiftLeft_eq]; omega)
  simp only [unpack10Group, u0, u1, u2, u3,
    shifted_bits_eq b4 2 0 h4 (by norm_num),
    shifted_bits_eq b4 4 2 h4 (by norm_num),
    shifted_bits_eq b4 6 4 h4 (by norm_num),
    shifted_bits_eq b4 8 6 h4 (by norm_num),
    Nat.shiftRight_zero]

/-- Witness for the amended 10-bit group formula at the spec's scenario
group: packing `[1,2,3,4]` gives bytes `(0,0,0,1,57)`. -/
theorem unpack10_group_formula_witness :
    unpack10Group 0 0 0 1 57 =
      [ (0 <<< 2) ||| (57 &&& 3),
        (0 <<< 2) ||| ((57 >>> 2) &&& 3),
        (0 <<< 2) ||| ((57 >>> 4) &&& 3),
        (1 <<< 2) ||| ((57 >>> 6) &&& 3) ] :=
  (unpack10_group_formula 0 0 0 1 57 (by decide) (by decide) (by decide) (by decide)
    (by decide)).1

/-- C4: each 3-byte group of the 12-bit unpack yields exactly the two samples
`(byte0 <<< 4) ||| (byte2 &&& 0x0F)` and `(byte1 <<< 4) ||| ((byte2 >>> 4) &&& 0x0F)`. -/
theorem unpack12_group_formula (b0 b1 b2 : Nat)
    (h0 : b0 < 256) (h1 : b1 < 256) (h2 : b2 < 256) :
    (unpack12Group b0 b1 b2 =
      [ (b0 <<< 4) ||| (b2 &&& 15), (b1 <<< 4) ||| ((b2 >>> 4) &&& 15) ])
  ∧ ∀ rest, unpack12Row (b0 :: b1 :: b2 :: rest) =
      unpack12Group b0 b1 b2 ++ unpack12Row rest := by
  refine ⟨?_, fun rest => rfl⟩
  simp only [unpack12Group, u16, and_fifteen, Nat.shiftLeft_eq,
    Nat.shiftRight_eq_div_pow, List.cons.injEq, and_true]
  constructor
  · rw [or_eq_add_pow 4 (b0 * 2 ^ 4) (b2 % 16) (by omega) (by omega)]
    omega
  · rw [or_eq_add_pow 4 (b1 * 2 ^ 4) (b2 / 2 ^ 4 % 16) (by omega) (by omega)]
    omega

/-- Witness for the 12-bit group formula on the bytes `(0x12, 0x34, 0x56)`. -/
theorem unpack12_group_formula_witness :
    unpack12Group 18 52 86 =
      [ (18 <<< 4) ||| (86 &&& 15), (52 <<< 4) ||| ((86 >>> 4) &&& 15) ] :=
  (unpack12_group_formula 18 52 86 (by decide) (by decide) (by decide)).1

/-- C5 (amended): a `CSI2P` capture format whose stored bit depth is not 10,
12 or 16 does not fail — `__unpack_pixels__` has no error path — it falls
through every branch and returns the cropped `uint8` data unchanged. -/
theorem unpack_unsupported_returns_data (fmt : CaptureFormat) (d : NDArray)
    (hd : d.dtype = NpDtype.uint8) (hcsi : hasCSI2P fmt.format = true)
    (h10 : fmt.bpp ≠ 10) (h12 : fmt.bpp ≠ 12) (h16 : fmt.bpp ≠ 16) :
    unpackPixels fmt d =
      ⟨NpDtype.uint8,
        (d.data.take fmt.size.2).map (fun r => r.take (fmt.size.1 * fmt.bpp / 8))⟩ := by
  rcases d with ⟨dt, rows⟩
  simp only [NDArray.dtype] at hd
  subst hd
  simp only [unpackPixels, hcsi, if_true, ne_eq, not_true_eq_false, if_false,
    reduceIte, h10, h12, h16]

/-- Witness: a 14-bit `CSI2P` descriptor over a 1-by-7 byte buffer — the
unpacker returns the buffer unchanged (crop is the identity here). -/
theorem unpack_unsupported_returns_data_witness :
    unpackPixels ⟨(4, 1), 0, 14, fmt14Name⟩ ⟨NpDtype.uint8, [[1, 2, 3, 4, 5, 6, 7]]⟩ =
      ⟨NpDtype.uint8,
        ([[1, 2, 3, 4, 5, 6, 7]].take 1).map (fun r => r.take (4 * 14 / 8))⟩ :=
  unpack_unsupported_returns_data ⟨(4, 1), 0, 14, fmt14Name⟩
    ⟨NpDtype.uint8, [[1, 2, 3, 4, 5, 6, 7]]⟩ rfl (by decide)
    (by decide) (by decide) (by decide)

/-- Counterexample to C5 as stated: the 14-bit `CSI2P` descriptor does not
produce an `UnsupportedFormat` failure; the unpacker returns the input
buffer (cropped, here the identity) as a normal result. -/
theorem unpack_unsupported_no_error :
    unpackPixels ⟨(4, 1), 0, 14, fmt14Name⟩ ⟨NpDtype.uint8, [[1, 2, 3, 4, 5, 6, 7]]⟩ =
      ⟨NpDtype.uint8, [[1, 2, 3, 4, 5, 6, 7]]⟩ := by
  decide

/-- Witness for C1 at the spec's scenario: the row `[1,2,3,4]` at 10-bit
depth packs into 5 bytes and unpacks back to `[1,2,3,4]`; likewise on the
12-bit path. -/
theorem unpack_inverts_pack_witness :
    (unpackPixels ⟨(4, 1), 0, 10, fmt10Name⟩
        ⟨NpDtype.uint8, [[1, 2, 3, 4]].map pack10Row⟩ = ⟨NpDtype.uint16, [[1, 2, 3, 4]]⟩)
  ∧ (unpackPixels ⟨(4, 1), 0, 12, fmt12Name⟩
        ⟨NpDtype.uint8, [[1, 2, 3, 4]].map pack12Row⟩ = ⟨NpDtype.uint16, [[1, 2, 3, 4]]⟩) :=
  ⟨(unpack_inverts_pack 4 1 [[1, 2, 3, 4]] (by decide) (by decide)).1
      (by decide) (by decide),
   (unpack_inverts_pack 4 1 [[1, 2, 3, 4]] (by decide) (by decide)).2
      (by decide) (by decide)⟩

/-! ## Container / IFD binary layout (`dng.py`) — spec-modelled

`dng.py` (classes `DNG`, `dngIFD`, `dngTag`) is not under `src/`; the layout
engine below is modelled from spec §4.5: a fixed-size header, then each IFD
as a 2-byte entry count, 12-byte directory entries, a 4-byte next-IFD
pointer and an overflow region holding every value wider than the 4 inline
bytes, then the strips.  `ifdLen` is the Pass-2 closed-form size,
`dngWrite` the Pass-4 materialization. -/

/-- Two bytes, little-endian. -/
def le16 (n : Nat) : List Nat := [n % 256, n / 256 % 256]

/-- Four bytes, little-endian. -/
def le32 (n : Nat) : List Nat :=
  [n % 256, n / 256 % 256, n / 65536 % 256, n / 16777216 % 256]

/-- Modelled from the spec: one encoded tag of `dng.py` — numeric id, type
code, value count and the encoded value bytes. -/
structure DngTagEnc where
  tagId : Nat
  tagType : Nat
  count : Nat
  valueBytes : List Nat
deriving DecidableEq, Repr

/-- The overflow region contribution of a tag: its value bytes when they do
not fit the 4 inline bytes of the directory entry. -/
def tagOverflow (t : DngTagEnc) : List Nat :=
  if 4 < t.valueBytes.length then t.valueBytes else []

/-- One 12-byte directory entry: id, type, count, then either the inline
value padded to 4 bytes or the 4-byte offset of the overflow value. -/
def tagEntry (t : DngTagEnc) (overflowOffset : Nat) : List Nat :=
  le16 t.tagId ++ le16 t.tagType ++ le32 t.count ++
    (if 4 < t.valueBytes.length then le32 overflowOffset
     else t.valueBytes ++ List.replicate (4 - t.valueBytes.length) 0)

/-- Pass-2 closed-form encoded length of one IFD: entry count field,
12 bytes per entry, next-IFD pointer, overflow region. -/
def ifdLen (tags : List DngTagEnc) : Nat :=
  6 + 12 * tags.length + (tags.map (fun t => (tagOverflow t).length)).sum

/-- Directory entries (with running overflow offsets) and the overflow
region of an IFD; `pos` is the absolute offset of the next free overflow
byte. -/
def ifdEntries (pos : Nat) : List DngTagEnc → List Nat × List Nat
  | [] => ([], [])
  | t :: ts =>
    let rest := ifdEntries (pos + (tagOverflow t).length) ts
    (tagEntry t pos ++ rest.1, tagOverflow t ++ rest.2)

/-- The full encoding of one IFD placed at absolute offset `base`. -/
def ifdBytes (base : Nat) (tags : List DngTagEnc) : List Nat :=
  let enc := ifdEntries (base + 6 + 12 * tags.length) tags
  le16 tags.length ++ enc.1 ++ le32 0 ++ enc.2

/-- Modelled from the spec: the Container — an ordered sequence of IFDs and
an ordered sequence of strips. -/
structure DNGfile where
  ifds : List (List DngTagEnc)
  strips : List (List Nat)
deriving DecidableEq, Repr

/-- The 8-byte TIFF header (little-endian order mark, magic 42, offset of
the first IFD). -/
def HEADER : List Nat := [73, 73, 42, 0, 8, 0, 0, 0]

/-- Pass-2 total length: header + Σ IFD encoded length + Σ strip length. -/
def dngDataLen (d : DNGfile) : Nat :=
  HEADER.length + (d.ifds.map ifdLen).sum + (d.strips.map List.length).sum

/-- The IFD blocks, each placed after the previous one. -/
def writeIFDs (base : Nat) : List (List DngTagEnc) → List Nat
  | [] => []
  | t :: ts => ifdBytes base t ++ writeIFDs (base + ifdLen t) ts

/-- Pass-4 materialization: header, then every IFD block, then every strip. -/
def dngWrite (d : DNGfile) : List Nat :=
  HEADER ++ writeIFDs HEADER.length d.ifds ++ d.strips.flatten

/-- Every directory entry encodes to exactly 12 bytes. -/
theorem tagEntry_length (t : DngTagEnc) (pos : Nat) : (tagEntry t pos).length = 12 := by
  simp only [tagEntry, le16, le32, List.length_append, List.length_cons, List.length_nil]
  split
  · simp [le32]
  · simp only [List.length_append, List.length_replicate]
    omega

/-- Lengths of the entry block and the overflow region of an IFD. -/
theorem ifdEntries_length (tags : List DngTagEnc) (pos : Nat) :
    (ifdEntries pos tags).1.length = 12 * tags.length
  ∧ (ifdEntries pos tags).2.length = (tags.map (fun t => (tagOverflow t).length)).sum := by
  induction tags generalizing pos with
  | nil => simp [ifdEntries]
  | cons t ts ih =>
    obtain ⟨ih1, ih2⟩ := ih (pos + (tagOverflow t).length)
    show (tagEntry t pos ++ (ifdEntries (pos + (tagOverflow t).length) ts).1).length = _
      ∧ (tagOverflow t ++ (ifdEntries (pos + (tagOverflow t).length) ts).2).length = _
    simp only [List.length_append, List.length_cons, List.map_cons, List.sum_cons,
      tagEntry_length, ih1, ih2]
    exact ⟨by omega, trivial⟩

/-- The materialized length of one IFD equals its Pass-2 closed-form length,
independently of where it is placed. -/
theorem ifdBytes_length (base : Nat) (tags : List DngTagEnc) :
    (ifdBytes base tags).length = ifdLen tags := by
  simp only [ifdBytes, ifdLen, le16, le32, List.length_append, List.length_cons,
    List.length_nil, (ifdEntries_length tags _).1, (ifdEntries_length tags _).2]
  omega

/-- The materialized length of a run of IFD blocks. -/
theorem writeIFDs_length (ifds : List (List DngTagEnc)) (base : Nat) :
    (writeIFDs base ifds).length = (ifds.map ifdLen).sum := by
  induction ifds generalizing base with
  | nil => rfl
  | cons t ts ih =>
    simp only [writeIFDs, List.length_append, ifdBytes_length, List.map_cons,
      List.sum_cons, ih]

/-- C2: for any number of tags per IFD and any number of strips, the Pass-2
computed total length (header + Σ IFD encoded length + Σ strip length)
equals the number of bytes actually materialized by Pass 4. -/
theorem dngWrite_length (d : DNGfile) : (dngWrite d).length = dngDataLen d := by
  simp only [dngWrite, dngDataLen, List.length_append, writeIFDs_length,
    List.length_flatten]

/-! ## Tag table, validation and the `__process__` / `convert` pipeline -/

/-- TIFF tag id of `Tag.ImageWidth` (fixed external registry). -/
def ImageWidth : Nat := 256

/-- TIFF tag id of `Tag.ImageLength`. -/
def ImageLength : Nat := 257

/-- TIFF tag id of `Tag.BitsPerSample`. -/
def BitsPerSample : Nat := 258

/-- Modelled from the spec: the `DNGTags` collection of `dng.py` is not
under `src/`; it is an id-keyed table of raw tag values. -/
structure DNGTags where
  entries : List (Nat × List Nat)
deriving DecidableEq, Repr

/-- `DNGTags.get`: lookup by tag id (`None` when absent, the falsy case of
`if not tags.get(...)`). -/
def DNGTags.get (tags : DNGTags) (tagId : Nat) : Option (List Nat) :=
  tags.entries.lookup tagId

/-- `DNGBASE.__tags_condition__` (core.py lines 21-27): the three required
tags, checked in order, each absence raising its own message. -/
def tagsCondition (tags : DNGTags) : Except String Unit :=
  if (tags.get ImageWidth).isNone then Except.error "No width is defined in tags."
  else if (tags.get ImageLength).isNone then Except.error "No height is defined in tags."
  else if (tags.get BitsPerSample).isNone then Except.error "Bit per pixel is not defined."
  else Except.ok ()

/-- `DNGBASE.__data_condition__` (core.py lines 17-19): the input array must
be `uint16` or `float32`. -/
def dataConditionBase (frame : NDArray) : Except String Unit :=
  if frame.dtype ≠ NpDtype.uint16 ∧ frame.dtype ≠ NpDtype.float32 then
    Except.error "RAW Data is not in correct format. Must be uint16_t or float32_t Numpy Array. "
  else Except.ok ()

/-- `RPICAM2DNG.__data_condition__` (core.py lines 178-180): a non-`uint8`
array only triggers `warnings.warn`; the function never raises.  The
returned list holds the emitted warnings. -/
def dataConditionRPi (frame : NDArray) : List String :=
  if frame.dtype ≠ NpDtype.uint8 then
    ["RAW Data is not in correct format. Already unpacked? "]
  else []

/-- Result of calling the caller-supplied filter hook: either not a numpy
array at all, or some array. -/
inductive FilterResult where
  | notArray : FilterResult
  | array : NDArray → FilterResult

/-- `DNGBASE.__filter__` (core.py lines 32-45): identity when no hook is
set; otherwise the hook's result must be an array of identical shape and of
dtype `uint16`.  The embedding is pure — the source never writes into
`rawFrame`, so a failing hook leaves the caller's array untouched. -/
def filterStep (rawFrame : NDArray) (hook : Option (NDArray → FilterResult)) :
    Except String NDArray :=
  match hook with
  | none => Except.ok rawFrame
  | some f =>
    match f rawFrame with
    | FilterResult.notArray => Except.error "return value is not a valid numpy array!"
    | FilterResult.array processed =>
      if processed.shape ≠ rawFrame.shape then
        Except.error "return array does not have the same shape!"
      else if processed.dtype ≠ NpDtype.uint16 then
        Except.error "array data type is invalid!"
      else Except.ok processed

/-- Observable side effects of `__process__`: invoking the external lossless
coder (`pack16tolj`) and allocating the output buffer (`bytearray`). -/
inductive Effect where
  | coderInvoked (width length bpp predictor : Nat) : Effect
  | bufferAllocated (size : Nat) : Effect
deriving DecidableEq, Repr

/-- `tobytes()` of one row, by element type. -/
def rawBytesRow : NpDtype → List Nat → List Nat
  | NpDtype.uint8, r => r
  | NpDtype.uint16, r => (r.map le16).flatten
  | NpDtype.float32, r => (r.map le32).flatten

/-- The uncompressed tile of `__process__` (core.py lines 78-89): dispatch
on the declared bits-per-sample. -/
def bitPack (bpp : Nat) (frame : NDArray) : List Nat :=
  if bpp = 8 then (frame.data.map (fun r => r.map (fun s => s % 256))).flatten
  else if bpp = 10 then (frame.data.map pack10Row).flatten
  else if bpp = 12 then (frame.data.map pack12Row).flatten
  else if bpp = 14 then (frame.data.map pack14Row).flatten
  else (frame.data.map (rawBytesRow frame.dtype)).flatten

/-- Modelled from the spec: the main IFD of Pass 1 — the strip-offsets
placeholder, bookkeeping tags, then the caller's tags (encodings per the
fixed registry; `dng.py` is not under `src/`). -/
def buildMainIFD (tags : DNGTags) (tileLen : Nat) (compress : Bool)
    (dtype : NpDtype) : List DngTagEnc :=
  [ ⟨273, 4, 1, le32 0⟩,
    ⟨254, 4, 1, le32 0⟩,
    ⟨279, 4, 1, le32 tileLen⟩,
    ⟨259, 3, 1, le16 (if compress then 7 else 1) ++ [0, 0]⟩,
    ⟨305, 2, 5, [80, 105, 68, 78, 71]⟩,
    ⟨50706, 1, 4, [1, 4, 0, 0]⟩,
    ⟨50707, 1, 4, if dtype = NpDtype.float32 then [1, 4, 0, 0] else [1, 0, 0, 0]⟩,
    ⟨339, 3, 1, (if dtype = NpDtype.float32 then [3, 0] else [1, 0]) ++ [0, 0]⟩ ]
  ++ tags.entries.map (fun e => ⟨e.1, 3, e.2.length, e.2⟩)

/-- `DNGBASE.__process__` (core.py lines 48-125).  `coder` stands for the
external `pack16tolj`; the returned effect list records, in order, every
coder invocation and buffer allocation that the source performs before it
returns or raises.  The checks appear in source order: required tag reads,
the float-with-compression rejection, the predictor dispatch, the bit-pack
dispatch, then container assembly, Pass-2 size, allocation and Pass-4
write. -/
def process (coder : Nat → Nat → Nat → Nat → List Nat) (frame : NDArray)
    (tags : DNGTags) (compress : Bool) (predictor : Nat) :
    List Effect × Except String (List Nat) :=
  match tags.get ImageWidth, tags.get ImageLength, tags.get BitsPerSample with
  | some (width :: _), some (length :: _), some (bpp :: _) =>
    if frame.dtype = NpDtype.float32 ∧ compress = true then
      ([], Except.error "Compression is not supported for floating-point data")
    else
      let tileRes : List Effect × Except String (List Nat) :=
        if compress then
          if predictor = 1 then
            ([Effect.coderInvoked width length bpp 1], Except.ok (coder width length bpp 1))
          else if predictor = 6 then
            ([Effect.coderInvoked (width * 2) (length / 2) bpp 6],
              Except.ok (coder (width * 2) (length / 2) bpp 6))
          else ([], Except.error "Predictor must be either 1 or 6")
        else ([], Except.ok (bitPack bpp frame))
      match tileRes with
      | (effs, Except.error e) => (effs, Except.error e)
      | (effs, Except.ok tile) =>
        let container : DNGfile :=
          { ifds := [buildMainIFD tags tile.length compress frame.dtype],
            strips := [tile] }
        (effs ++ [Effect.bufferAllocated (dngDataLen container)],
          Except.ok (dngWrite container))
  | _, _, _ => ([], Except.error "AttributeError: NoneType has no attribute rawValue")

/-- `DNGBASE.convert` after `DNGBASE.options` (core.py lines 127-143):
`options` runs `__tags_condition__` and stores the settings; `convert` runs
`__data_condition__`, the identity `__unpack_pixels__`, `__filter__`, then
`__process__`. -/
def optionsThenConvertBase (coder : Nat → Nat → Nat → Nat → List Nat)
    (tags : DNGTags) (compress : Bool) (predictor : Nat)
    (hook : Option (NDArray → FilterResult)) (image : NDArray) :
    List Effect × Except String (List Nat) :=
  match tagsCondition tags with
  | Except.error e => ([], Except.error e)
  | Except.ok _ =>
    match dataConditionBase image with
    | Except.error e => ([], Except.error e)
    | Except.ok _ =>
      match filterStep image hook with
      | Except.error e => ([], Except.error e)
      | Except.ok filtered => process coder filtered tags compress predictor

/-- `RPICAM2DNG.convert` after `CAM2DNG.options` (core.py lines 134-143,
170-174): the tag check from `options`, then the warn-only
`__data_condition__`, `__unpack_pixels__`, `__filter__` and `__process__`.
`CAM2DNG.options` never sets `self.predictor`, so the attribute read in
`convert` is `none` unless a caller set it through `DNGBASE.options` or
direct assignment; `none` raises `AttributeError` at the `__process__` call
site.  The first component collects the warnings emitted. -/
def convertRPi (coder : Nat → Nat → Nat → Nat → List Nat) (fmt : CaptureFormat)
    (tags : DNGTags) (compress : Bool) (hook : Option (NDArray → FilterResult))
    (predictorAttr : Option Nat) (image : NDArray) :
    List String × (List Effect × Except String (List Nat)) :=
  match tagsCondition tags with
  | Except.error e => ([], ([], Except.error e))
  | Except.ok _ =>
    let warns := dataConditionRPi image
    match filterStep (unpackPixels fmt image) hook with
    | Except.error e => (warns, ([], Except.error e))
    | Except.ok filtered =>
      match predictorAttr with
      | none => (warns, ([], Except.error "AttributeError: predictor"))
      | some p => (warns, process coder filtered tags compress p)

/-! ## Concrete fixtures used by witnesses and counterexamples -/

/-- A trivial stand-in for the external coder. -/
def coder0 : Nat → Nat → Nat → Nat → List Nat := fun _ _ _ _ => []

/-- A tag table carrying the three required tags (width 4, height 2,
16 bits per sample). -/
def tags0 : DNGTags := ⟨[(256, [4]), (257, [2]), (258, [16])]⟩

/-- A tag table missing the image-width tag. -/
def tagsNoWidth : DNGTags := ⟨[(257, [2]), (258, [16])]⟩

/-- A small floating-point frame. -/
def floatImg : NDArray := ⟨NpDtype.float32, [[0, 1]]⟩

/-- A small `uint16` frame. -/
def img16 : NDArray := ⟨NpDtype.uint16, [[1, 2]]⟩

/-- A small `uint8` frame. -/
def img8 : NDArray := ⟨NpDtype.uint8, [[1, 2]]⟩

/-- A non-`CSI2P` capture format (stored depth treated as 16). -/
def fmtPlain : CaptureFormat := ⟨(2, 1), 0, 16, ['S', 'R', 'G', 'G', 'B', '1', '6']⟩

/-- C6: a floating-point frame with `compress=true` is rejected inside
`__process__` before the coder is invoked and before any buffer is
allocated (the effect trace is empty), for every predictor; the same
rejection reaches the caller of `convert`. -/
theorem float_compress_rejected (coder : Nat → Nat → Nat → Nat → List Nat)
    (frame : NDArray) (tags : DNGTags) (p w l b : Nat) (ws ls bs : List Nat)
    (hw : tags.get ImageWidth = some (w :: ws))
    (hl : tags.get ImageLength = some (l :: ls))
    (hb : tags.get BitsPerSample = some (b :: bs))
    (hdt : frame.dtype = NpDtype.float32) :
    ((process coder frame tags true p).2 =
      Except.error "Compression is not supported for floating-point data")
  ∧ (∀ w2 l2 b2 p2, Effect.coderInvoked w2 l2 b2 p2 ∉ (process coder frame tags true p).1)
  ∧ (∀ n, Effect.bufferAllocated n ∉ (process coder frame tags true p).1)
  ∧ (optionsThenConvertBase coder tags true p none frame =
      ([], Except.error "Compression is not supported for floating-point data")) := by
  have hp : process coder frame tags true p =
      ([], Except.error "Compression is not supported for floating-point data") := by
    simp [process, hw, hl, hb, hdt]
  have htc : tagsCondition tags = Except.ok () := by
    simp [tagsCondition, hw, hl, hb]
  have hdc : dataConditionBase frame = Except.ok () := by
    simp [dataConditionBase, hdt]
  refine ⟨by rw [hp], ?_, ?_, ?_⟩
  · intro w2 l2 b2 p2
    rw [hp]
    simp
  · intro n
    rw [hp]
    simp
  · simp [optionsThenConvertBase, htc, hdc, filterStep, hp]

/-- Witness for C6 at a concrete frame, tag table and predictor. -/
theorem float_compress_rejected_witness :
    ((process coder0 floatImg tags0 true 6).2 =
      Except.error "Compression is not supported for floating-point data")
  ∧ (∀ w2 l2 b2 p2, Effect.coderInvoked w2 l2 b2 p2 ∉ (process coder0 floatImg tags0 true 6).1)
  ∧ (∀ n, Effect.bufferAllocated n ∉ (process coder0 floatImg tags0 true 6).1)
  ∧ (optionsThenConvertBase coder0 tags0 true 6 none floatImg =
      ([], Except.error "Compression is not supported for floating-point data")) :=
  float_compress_rejected coder0 floatImg tags0 6 4 2 16 [] [] []
    (by decide) (by decide) (by decide) rfl

/-- C7 (amended): for a non-floating-point frame in a compressed conversion,
a predictor other than 1 or 6 fails with the invalid-predictor error and no
effects; predictor 1 invokes the coder with the declared width and height;
predictor 6 invokes it with the width doubled and the height halved. -/
theorem predictor_dispatch (coder : Nat → Nat → Nat → Nat → List Nat)
    (frame : NDArray) (tags : DNGTags) (w l b : Nat) (ws ls bs : List Nat)
    (hw : tags.get ImageWidth = some (w :: ws))
    (hl : tags.get ImageLength = some (l :: ls))
    (hb : tags.get BitsPerSample = some (b :: bs))
    (hdt : frame.dtype ≠ NpDtype.float32) :
    (∀ p, p ≠ 1 → p ≠ 6 →
      process coder frame tags true p =
        ([], Except.error "Predictor must be either 1 or 6"))
  ∧ Effect.coderInvoked w l b 1 ∈ (process coder frame tags true 1).1
  ∧ Effect.coderInvoked (w * 2) (l / 2) b 6 ∈ (process coder frame tags true 6).1 := by
  refine ⟨fun p hp1 hp6 => ?_, ?_, ?_⟩
  · simp [process, hw, hl, hb, hdt, hp1, hp6]
  · simp [process, hw, hl, hb, hdt]
  · simp [process, hw, hl, hb, hdt]

/-- Witness for the amended C7 at a concrete frame and tag table. -/
theorem predictor_dispatch_witness :
    (∀ p, p ≠ 1 → p ≠ 6 →
      process coder0 img16 tags0 true p =
        ([], Except.error "Predictor must be either 1 or 6"))
  ∧ Effect.coderInvoked 4 2 16 1 ∈ (process coder0 img16 tags0 true 1).1
  ∧ Effect.coderInvoked (4 * 2) (2 / 2) 16 6 ∈ (process coder0 img16 tags0 true 6).1 :=
  predictor_dispatch coder0 img16 tags0 4 2 16 [] [] []
    (by decide) (by decide) (by decide) (by decide)

/-- Counterexample to C7 as stated: in a compressed conversion of a
floating-point frame, predictor 3 does not fail with the invalid-predictor
error — the float rejection fires first, with a different message. -/
theorem predictor_claim_counterexample :
    (process coder0 floatImg tags0 true 3).2 =
      Except.error "Compression is not supported for floating-point data"
  ∧ (process coder0 floatImg tags0 true 3).2 ≠
      Except.error "Predictor must be either 1 or 6" := by
  constructor
  · rfl
  · have he : (process coder0 floatImg tags0 true 3).2 =
        Except.error "Compression is not supported for floating-point data" := rfl
    rw [he]
    intro h
    have hmsg := Except.error.inj h
    revert hmsg
    decide

/-- C8: a tag table missing image width, image length or bits-per-sample
makes the conversion fail inside `options` with the matching message, with
an empty effect trace — in particular before any buffer allocation. -/
theorem missing_tag_fails (coder : Nat → Nat → Nat → Nat → List Nat)
    (tags : DNGTags) (compress : Bool) (p : Nat)
    (hook : Option (NDArray → FilterResult)) (image : NDArray)
    (hmiss : tags.get ImageWidth = none ∨ tags.get ImageLength = none
      ∨ tags.get BitsPerSample = none) :
    ∃ msg, msg ∈ ["No width is defined in tags.", "No height is defined in tags.",
        "Bit per pixel is not defined."]
      ∧ optionsThenConvertBase coder tags compress p hook image =
          ([], Except.error msg) := by
  by_cases h1 : (tags.get ImageWidth).isNone
  · exact ⟨"No width is defined in tags.", by simp,
      by simp [optionsThenConvertBase, tagsCondition, h1]⟩
  · by_cases h2 : (tags.get ImageLength).isNone
    · exact ⟨"No height is defined in tags.", by simp,
        by simp [optionsThenConvertBase, tagsCondition, h1, h2]⟩
    · by_cases h3 : (tags.get BitsPerSample).isNone
      · exact ⟨"Bit per pixel is not defined.", by simp,
          by simp [optionsThenConvertBase, tagsCondition, h1, h2, h3]⟩
      · rcases hmiss with h | h | h <;> simp [h] at h1 h2 h3

/-- Witness for C8: omitting the width tag fails with the width message and
an empty effect trace. -/
theorem missing_tag_fails_witness :
    ∃ msg, msg ∈ ["No width is defined in tags.", "No height is defined in tags.",
        "Bit per pixel is not defined."]
      ∧ optionsThenConvertBase coder0 tagsNoWidth false 6 none img16 =
          ([], Except.error msg) :=
  missing_tag_fails coder0 tagsNoWidth false 6 none img16 (Or.inl (by decide))

/-- A hook returning an array of a different shape. -/
def hookBadShape : NDArray → FilterResult :=
  fun _ => FilterResult.array ⟨NpDtype.uint16, [[1], [2]]⟩

/-- A hook returning an array of the right shape but wrong dtype. -/
def hookBadDtype : NDArray → FilterResult :=
  fun a => FilterResult.array ⟨NpDtype.float32, a.data⟩

/-- A hook returning something that is not a numpy array. -/
def hookNotArray : NDArray → FilterResult := fun _ => FilterResult.notArray

/-- C9: with no hook the filter step is the identity; a hook whose result
has the wrong shape fails with the shape error, one with the wrong dtype
fails with the dtype error and a non-array result fails with the type
error.  `filterStep` is pure — the failing cases return only the error, so
the caller's array is untouched. -/
theorem filter_contract (raw : NDArray) (f : NDArray → FilterResult) (p : NDArray) :
    (filterStep raw none = Except.ok raw)
  ∧ (f raw = FilterResult.array p → p.shape ≠ raw.shape →
      filterStep raw (some f) = Except.error "return array does not have the same shape!")
  ∧ (f raw = FilterResult.array p → p.shape = raw.shape → p.dtype ≠ NpDtype.uint16 →
      filterStep raw (some f) = Except.error "array data type is invalid!")
  ∧ (f raw = FilterResult.notArray →
      filterStep raw (some f) = Except.error "return value is not a valid numpy array!") := by
  refine ⟨rfl, ?_, ?_, ?_⟩
  · intro hf hsh
    simp [filterStep, hf, hsh]
  · intro hf hsh hdt
    simp [filterStep, hf, hsh, hdt]
  · intro hf
    simp [filterStep, hf]

/-- Witness for C9 on concrete hooks over a 1-by-2 `uint16` frame. -/
theorem filter_contract_witness :
    (filterStep img16 none = Except.ok img16)
  ∧ (filterStep img16 (some hookBadShape) =
      Except.error "return array does not have the same shape!")
  ∧ (filterStep img16 (some hookBadDtype) =
      Except.error "array data type is invalid!")
  ∧ (filterStep img16 (some hookNotArray) =
      Except.error "return value is not a valid numpy array!") :=
  ⟨(filter_contract img16 hookBadShape ⟨NpDtype.uint16, [[1], [2]]⟩).1,
   (filter_contract img16 hookBadShape ⟨NpDtype.uint16, [[1], [2]]⟩).2.1 rfl (by decide),
   (filter_contract img16 hookBadDtype ⟨NpDtype.float32, img16.data⟩).2.2.1 rfl (by decide)
     (by decide),
   (filter_contract img16 hookNotArray ⟨NpDtype.uint16, [[1], [2]]⟩).2.2.2 rfl⟩

/-- C10 (amended): for the base `DNGBASE`/`RAW2DNG` pipeline, an input
array whose element type is neither `uint16` nor `float32` aborts the
conversion with the validation message and an empty effect trace — before
any allocation or coder invocation. -/
theorem wrong_dtype_aborts (coder : Nat → Nat → Nat → Nat → List Nat)
    (tags : DNGTags) (compress : Bool) (p : Nat)
    (hook : Option (NDArray → FilterResult)) (image : NDArray)
    (htags : tagsCondition tags = Except.ok ())
    (h16 : image.dtype ≠ NpDtype.uint16) (hf : image.dtype ≠ NpDtype.float32) :
    optionsThenConvertBase coder tags compress p hook image =
      ([], Except.error
        "RAW Data is not in correct format. Must be uint16_t or float32_t Numpy Array. ") := by
  simp [optionsThenConvertBase, htags, dataConditionBase, h16, hf]

/-- Witness for the amended C10: a `uint8` frame entering the base pipeline
aborts with the validation error. -/
theorem wrong_dtype_aborts_witness :
    optionsThenConvertBase coder0 tags0 false 6 none img8 =
      ([], Except.error
        "RAW Data is not in correct format. Must be uint16_t or float32_t Numpy Array. ") :=
  wrong_dtype_aborts coder0 tags0 false 6 none img8 rfl (by decide) (by decide)

/-- Counterexample to C10 as stated: in the `RPICAM2DNG` variant a
wrongly-typed (`uint16`) input does not fail validation — the data
condition only emits a warning and the conversion runs to completion,
producing an output buffer. -/
theorem rpi_wrong_dtype_warns_and_continues :
    (convertRPi coder0 fmtPlain tags0 false none (some 6) img16).1 =
      ["RAW Data is not in correct format. Already unpacked? "]
  ∧ ∃ buf, (convertRPi coder0 fmtPlain tags0 false none (some 6) img16).2.2 =
      Except.ok buf := by
  exact ⟨rfl, ⟨_, rfl⟩⟩

end PiDNG
